import Mathlib

/-!
Verification of the GNSS parser's correction/statistics engine
(`gnss_parser.py`: `get_summary_statistics`, `calculate_position_corrections`,
`apply_corrections_to_data`).

Records are the generic key-value documents the external NMEA decoder
produces: association lists from string keys to values, looked up at the
first occurrence of a key (Python dictionaries cannot hold duplicate keys,
and first-occurrence lookup agrees with dictionary lookup on duplicate-free
lists). Python numbers (int and float) are idealized as exact rationals;
the transcendental parts of the code (`math.sqrt`, `math.cos`, `** 0.5`)
are embedded over the reals and factored into their own definitions so the
rational core stays executable. A Python expression that raises
(`ZeroDivisionError`) is modelled by an explicit `raised` outcome.
-/

namespace GNSS

/-- A value stored in a decoded fix record: a string, a number
(Python int and float idealized as `ℚ`), or Python `None`. -/
inductive Val where
  | str : String → Val
  | num : ℚ → Val
  | nil : Val
deriving DecidableEq

/-- A decoded fix record: the generic key-value document produced by the
external NMEA decoder, with first-occurrence key lookup. -/
abbrev Rec := List (String × Val)

/-- Python truthiness of a stored value: `0` and `""` and `None` are falsy. -/
def Val.truthy : Val → Bool
  | .str s => s ≠ ""
  | .num q => q ≠ 0
  | .nil => false

/-- The numeric content of a value; `0` on non-numbers (only reached on
records that are ill-typed for the Python code, see `WT`). -/
def Val.asNum : Val → ℚ
  | .num q => q
  | _ => 0

/-- Python `d.get(k)` followed by a truthiness test: `bool(d.get(k))`. -/
def getTruthy (d : Rec) (k : String) : Bool :=
  match d.lookup k with
  | some v => v.truthy
  | none => false

/-- Python `d[k]` read as a number, for call sites where the code has already
established the key is present (`0` junk otherwise). -/
def getNum (d : Rec) (k : String) : ℚ :=
  match d.lookup k with
  | some v => v.asNum
  | none => 0

/-- Python `d.get(k, default)` read as a number. -/
def getNumD (d : Rec) (k : String) (dflt : ℚ) : ℚ :=
  match d.lookup k with
  | some v => v.asNum
  | none => dflt

/-- Python `d.get(k, default)` read as a string; a non-string value behaves like a
label outside every lookup table, so it is folded into the default. -/
def getStrD (d : Rec) (k : String) (dflt : String) : String :=
  match d.lookup k with
  | some (.str s) => s
  | some _ => dflt
  | none => dflt

/-- Python `d[k]` where the code has established presence (junk `Val.num 0`
default otherwise). -/
def getVal (d : Rec) (k : String) : Val :=
  (d.lookup k).getD (Val.num 0)

/-- Python `d.get(k, v0)` returning the stored value itself. -/
def getValD (d : Rec) (k : String) (v0 : Val) : Val :=
  (d.lookup k).getD v0

/-- Well-typedness of a record for the numeric code paths: the fields the
engine does arithmetic on hold numbers whenever they are present. On such
records the embedding agrees with the Python code (which would raise a
`TypeError` on other inputs). -/
def numericAt (d : Rec) (k : String) : Bool :=
  match d.lookup k with
  | some (Val.num _) => true
  | some _ => false
  | none => true

/-- A record is well-typed when its latitude, longitude, altitude,
satellite-count and HDOP fields are numeric whenever present. -/
def WT (d : Rec) : Bool :=
  numericAt d "latitude" && numericAt d "longitude" && numericAt d "altitude" &&
    numericAt d "num_satellites" && numericAt d "hdop"

/-- The test `d.get('sentence_type') == t`. -/
def isOfType (d : Rec) (t : String) : Bool :=
  d.lookup "sentence_type" == some (Val.str t)

/-- The filter of `calculate_position_corrections` (and of
`apply_corrections_to_data`): a GGA record whose latitude and longitude are
present and truthy (non-zero). -/
def isQualifying (d : Rec) : Bool :=
  isOfType d "GGA" && getTruthy d "latitude" && getTruthy d "longitude"

/-- The list `gga_data`: the qualifying records of the input, in order. -/
def ggaData (data : List Rec) : List Rec :=
  data.filter isQualifying

/-- The list `lats = [d['latitude'] for d in gga_data]`. -/
def latsOf (data : List Rec) : List ℚ :=
  (ggaData data).map (fun d => getNum d "latitude")

/-- The list `lons = [d['longitude'] for d in gga_data]`. -/
def lonsOf (data : List Rec) : List ℚ :=
  (ggaData data).map (fun d => getNum d "longitude")

/-- The list `alts = [d.get('altitude', 0) for d in gga_data]`. -/
def altsOf (data : List Rec) : List ℚ :=
  (ggaData data).map (fun d => getNumD d "altitude" 0)

/-- Python `statistics.mean` (only ever applied to non-empty lists by the code). -/
def listMean (l : List ℚ) : ℚ :=
  l.sum / l.length

/-- Python `statistics.median`: sort, take the middle element for odd length, the
average of the two middle elements for even length. -/
def median (l : List ℚ) : ℚ :=
  let s := l.mergeSort (fun a b => a ≤ b)
  let n := l.length
  if n % 2 = 1 then s.getD (n / 2) 0
  else (s.getD (n / 2 - 1) 0 + s.getD (n / 2) 0) / 2

/-- Python `any(...)` over a list of numbers: some element is non-zero. -/
def pyAny (l : List ℚ) : Bool :=
  l.any (fun a => a != 0)

/-- The `quality_weights` table, with the `.get(..., 1.0)` default for
labels outside it. -/
def quality_weights (q : String) : ℚ :=
  if q = "RTK Fixed" then 10
  else if q = "RTK Float" then 5
  else if q = "DGPS Fix" then 2
  else if q = "GPS Fix" then 1
  else if q = "No Fix" then 1/10
  else 1

/-- The per-record weight of the `weighted_average` branch
(`gnss_parser.py` lines 268-277). -/
def recordWeight (weight_by_quality : Bool) (d : Rec) : ℚ :=
  let quality_weight := quality_weights (getStrD d "fix_quality" "Unknown")
  let sat_weight := getNumD d "num_satellites" 4 / 12
  let hdop := getNumD d "hdop" 2
  let hdop_weight := 1 / max hdop (1/2)
  if weight_by_quality then quality_weight * sat_weight * hdop_weight else 1

/-- The sum `sum(v * w for v, w in zip(values, weights))`. -/
def wsum (values weights : List ℚ) : ℚ :=
  ((values.zip weights).map (fun p => p.1 * p.2)).sum

/-- The `corrected_position` / `original_center` documents. -/
structure Position where
  latitude : ℚ
  longitude : ℚ
  altitude : ℚ
deriving DecidableEq

/-- The rational core of a successful correction result. The real-valued
statistics of the result document (the distance corrections of lines
293-298/324-326, the standard deviations and the spread) use `math.sqrt`
and `math.cos` and are embedded separately over `ℝ`
(`correction_distances` below), as functions of the same inputs. -/
structure CorrCore where
  corrected_position : Position
  original_center : Position
  mean_lat_correction : ℚ
  mean_lon_correction : ℚ
  mean_alt_correction : ℚ
  num_points : ℕ
  method : String
  weight_by_quality : Bool
deriving DecidableEq

/-- A correction result document: either an error document (an `error`
message, plus a `num_points` key when the code adds one) or a success
document. -/
inductive CorrResultDoc where
  | err (error : String) (num_points : Option ℕ)
  | ok (res : CorrCore)
deriving DecidableEq

/-- The outcome of running `calculate_position_corrections`: a returned
result document, or a Python exception propagating out of the call. -/
inductive CorrOutcome where
  | raised (exn : String)
  | result (doc : CorrResultDoc)
deriving DecidableEq

/-- The corrected position of a successful outcome, if any. -/
def CorrOutcome.correctedPosition? : CorrOutcome → Option Position
  | .result (.ok r) => some r.corrected_position
  | _ => none

/-- The `num_points` field of the outcome's document, if any. -/
def CorrOutcome.numPoints? : CorrOutcome → Option ℕ
  | .result (.ok r) => some r.num_points
  | .result (.err _ np) => np
  | .raised _ => none

/-- Lines 287-336: the success document built from the corrected
position (rational part; see `CorrCore`). -/
def mkResult (n : ℕ) (method : String) (weight_by_quality : Bool)
    (lats lons alts : List ℚ) (clat clon calt : ℚ) : CorrOutcome :=
  .result (.ok {
    corrected_position := ⟨clat, clon, calt⟩
    original_center :=
      ⟨listMean lats, listMean lons, if pyAny alts then listMean alts else 0⟩
    mean_lat_correction := listMean (lats.map (fun lat => clat - lat))
    mean_lon_correction := listMean (lons.map (fun lon => clon - lon))
    mean_alt_correction :=
      if pyAny alts then listMean (alts.map (fun alt => calt - alt)) else 0
    num_points := n
    method := method
    weight_by_quality := weight_by_quality })

/-- The error message of the insufficient-data result. -/
def insufficientMsg : String :=
  "Insufficient data for corrections (need at least 2 position fixes)"

/-- Embeds `GNSSParser.calculate_position_corrections` (lines 219-336), rational
core. A zero total weight makes the Python division raise
`ZeroDivisionError`; the code has no guard for it. -/
def calculate_position_corrections (data : List Rec) (method : String)
    (weight_by_quality : Bool) : CorrOutcome :=
  let gga_data := ggaData data
  if gga_data.length < 2 then
    .result (.err insufficientMsg (some gga_data.length))
  else
    let lats := latsOf data
    let lons := lonsOf data
    let alts := altsOf data
    if method = "mean" then
      mkResult gga_data.length method weight_by_quality lats lons alts
        (listMean lats) (listMean lons)
        (if pyAny alts then listMean alts else 0)
    else if method = "median" then
      mkResult gga_data.length method weight_by_quality lats lons alts
        (median lats) (median lons)
        (if pyAny alts then median alts else 0)
    else if method = "weighted_average" then
      let weights := gga_data.map (recordWeight weight_by_quality)
      let total_weight := weights.sum
      if total_weight = 0 then .raised "ZeroDivisionError"
      else
        mkResult gga_data.length method weight_by_quality lats lons alts
          (wsum lats weights / total_weight) (wsum lons weights / total_weight)
          (if pyAny alts then wsum alts weights / total_weight else 0)
    else .result (.err ("Unknown correction method: " ++ method) none)

/-- Lines 295-297: the flat-Earth distance (in meters) between the
corrected position and one original fix, latitude-scaled for longitude:
`sqrt(((clat - lat) * 111000)^2 + ((clon - lon) * 111000 * cos(radians(lat)))^2)`. -/
noncomputable def correctionDistance (clat clon lat lon : ℚ) : ℝ :=
  let dlat : ℝ := ((clat - lat : ℚ) : ℝ) * 111000
  let dlon : ℝ := ((clon - lon : ℚ) : ℝ) * 111000 * Real.cos ((lat : ℝ) * Real.pi / 180)
  Real.sqrt (dlat ^ 2 + dlon ^ 2)

/-- Lines 293-298: `correction_distances`, one flat-Earth distance per
qualifying record, against a given corrected position. -/
noncomputable def correction_distances (data : List Rec) (clat clon : ℚ) : List ℝ :=
  (ggaData data).map (fun d => correctionDistance clat clon (getNum d "latitude") (getNum d "longitude"))

/-- Python `max(list)` over a non-empty list of floats (junk `0` on `[]`,
where Python would raise). -/
noncomputable def pyMaxR : List ℝ → ℝ
  | [] => 0
  | x :: xs => xs.foldl max x

/-- Python `min(list)` over a non-empty list of floats (junk `0` on `[]`). -/
noncomputable def pyMinR : List ℝ → ℝ
  | [] => 0
  | x :: xs => xs.foldl min x

/-- Python `statistics.mean` over a list of floats. -/
noncomputable def listMeanR (l : List ℝ) : ℝ :=
  l.sum / l.length

/-! ## Summary statistics (`get_summary_statistics`, lines 133-217)

The statistics document is a key-value list built in insertion order; every
key the code adds is fresh at the time it is added, so appending the
conditional blocks models the dictionary insertions exactly. -/

/-- A value of the statistics document: a count, an exact number, a
real-valued (square-root based) figure, a fix-type histogram, or a
histogram of percentages. -/
inductive SVal where
  | nat : ℕ → SVal
  | rat : ℚ → SVal
  | real : ℝ → SVal
  | hist : List (String × ℕ) → SVal
  | qhist : List (String × ℚ) → SVal

/-- The comprehension `[d[k] for d in l if d.get(k)]`: the values at a key over a record
list, keeping only truthy ones. -/
def truthyVals (l : List Rec) (k : String) : List ℚ :=
  (l.filter (fun d => getTruthy d k)).map (fun d => getNum d k)

/-- The comprehension `[d[k] for d in l if d.get(k) and d[k] > 0]` (the GSA DOP filters). -/
def posVals (l : List Rec) (k : String) : List ℚ :=
  (l.filter (fun d => getTruthy d k && decide (0 < getNum d k))).map (fun d => getNum d k)

/-- Python `max(list)` over a non-empty list of numbers (junk `0` on `[]`). -/
def listMaxQ : List ℚ → ℚ
  | [] => 0
  | x :: xs => xs.foldl max x

/-- Python `min(list)` over a non-empty list of numbers (junk `0` on `[]`). -/
def listMinQ : List ℚ → ℚ
  | [] => 0
  | x :: xs => xs.foldl min x

/-- Python `round(x, 1)`: round to one decimal, ties to the even tenth. -/
def pyRound1 (x : ℚ) : ℚ :=
  let y := x * 10
  let f : ℤ := ⌊y⌋
  let r := y - f
  (if r < 1/2 then (f : ℚ)
   else if 1/2 < r then (f : ℚ) + 1
   else if f % 2 = 0 then (f : ℚ) else (f : ℚ) + 1) / 10

/-- Line 169: `position_spread_meters`, the range-based flat-Earth spread. -/
noncomputable def spreadMeters (lats lons : List ℚ) : ℝ :=
  Real.sqrt ((((listMaxQ lats - listMinQ lats) ^ 2 + (listMaxQ lons - listMinQ lons) ^ 2 : ℚ) : ℝ)) * 111000

/-- One step of the fix-type histogram:
`fix_types[k] = fix_types.get(k, 0) + 1`, preserving insertion order. -/
def addCount (h : List (String × ℕ)) (k : String) : List (String × ℕ) :=
  match h with
  | [] => [(k, 1)]
  | (k', c) :: rest => if k' = k then (k, c + 1) :: rest else (k', c) :: addCount rest k

/-- Lines 183-187: the `fix_types` histogram over the GGA subset. -/
def fixTypesHist (gga_data : List Rec) : List (String × ℕ) :=
  gga_data.foldl (fun h d => addCount h (getStrD d "fix_quality" "Unknown")) []

/-- Line 214: GGA records whose `fix_quality` is RTK Fixed, RTK Float or
DGPS Fix. -/
def goodFixCount (gga_data : List Rec) : ℕ :=
  (gga_data.filter (fun d =>
    let q := getStrD d "fix_quality" "Unknown"
    q = "RTK Fixed" || q = "RTK Float" || q = "DGPS Fix")).length

/-- Lines 149-194: the statistics block contributed by the GGA subset. -/
noncomputable def ggaBlock (gga_data : List Rec) : List (String × SVal) :=
  if gga_data.isEmpty then []
  else
    let lats := truthyVals gga_data "latitude"
    let lons := truthyVals gga_data "longitude"
    let alts := truthyVals gga_data "altitude"
    let sats := truthyVals gga_data "num_satellites"
    (if !lats.isEmpty && !lons.isEmpty then
      [("avg_latitude", SVal.rat (listMean lats)),
       ("avg_longitude", SVal.rat (listMean lons)),
       ("min_latitude", SVal.rat (listMinQ lats)),
       ("max_latitude", SVal.rat (listMaxQ lats)),
       ("min_longitude", SVal.rat (listMinQ lons)),
       ("max_longitude", SVal.rat (listMaxQ lons)),
       ("position_spread_meters", SVal.real (spreadMeters lats lons))]
     else []) ++
    (if !alts.isEmpty then
      [("avg_altitude", SVal.rat (listMean alts)),
       ("min_altitude", SVal.rat (listMinQ alts)),
       ("max_altitude", SVal.rat (listMaxQ alts)),
       ("altitude_range", SVal.rat (listMaxQ alts - listMinQ alts))]
     else []) ++
    (if !sats.isEmpty then
      [("avg_satellites", SVal.rat (listMean sats)),
       ("min_satellites", SVal.rat (listMinQ sats)),
       ("max_satellites", SVal.rat (listMaxQ sats))]
     else []) ++
    [("fix_types", SVal.hist (fixTypesHist gga_data))] ++
    (if !(fixTypesHist gga_data).isEmpty then
      [("fix_percentages", SVal.qhist ((fixTypesHist gga_data).map
        (fun p => (p.1, pyRound1 ((p.2 : ℚ) / gga_data.length * 100)))))]
     else [])

/-- Lines 196-210: the statistics block contributed by the GSA subset. -/
def gsaBlock (gsa_data : List Rec) : List (String × SVal) :=
  if gsa_data.isEmpty then []
  else
    let hdops := posVals gsa_data "hdop"
    let pdops := posVals gsa_data "pdop"
    let vdops := posVals gsa_data "vdop"
    (if !hdops.isEmpty then
      [("avg_hdop", SVal.rat (listMean hdops)),
       ("min_hdop", SVal.rat (listMinQ hdops)),
       ("max_hdop", SVal.rat (listMaxQ hdops))]
     else []) ++
    (if !pdops.isEmpty then [("avg_pdop", SVal.rat (listMean pdops))] else []) ++
    (if !vdops.isEmpty then [("avg_vdop", SVal.rat (listMean vdops))] else [])

/-- Lines 212-215: the signal-quality block. -/
def signalBlock (gga_data : List Rec) : List (String × SVal) :=
  if gga_data.isEmpty then []
  else [("signal_quality_percent",
         SVal.rat (pyRound1 ((goodFixCount gga_data : ℚ) / gga_data.length * 100)))]

/-- Embeds `GNSSParser.get_summary_statistics` (lines 133-217), as the key-value
document it builds. -/
noncomputable def get_summary_statistics (data : List Rec) : List (String × SVal) :=
  if data.isEmpty then []
  else
    let gga_data := data.filter (fun d => isOfType d "GGA")
    let gsa_data := data.filter (fun d => isOfType d "GSA")
    let rmc_data := data.filter (fun d => isOfType d "RMC")
    [("total_sentences", SVal.nat data.length),
     ("gga_count", SVal.nat gga_data.length),
     ("gsa_count", SVal.nat gsa_data.length),
     ("rmc_count", SVal.nat rmc_data.length)]
    ++ ggaBlock gga_data ++ gsaBlock gsa_data ++ signalBlock gga_data

/-- The key under which the summary document reports the count of one
sentence type: the type's lowercased tag followed by `_count` (the naming
convention of the three counts the code emits). -/
def sentenceTypeCountKey : String → String
  | "GGA" => "gga_count"
  | "GSA" => "gsa_count"
  | "RMC" => "rmc_count"
  | "GSV" => "gsv_count"
  | t => t ++ "_count"

/-! ## Correction applicator (`apply_corrections_to_data`, lines 338-370) -/

/-- Python `dict[k] = v`: overwrite the first binding of `k` in place, else
append a fresh binding (Python dictionary assignment on duplicate-free
key lists, preserving insertion order). -/
def dictSet (d : Rec) (k : String) (v : Val) : Rec :=
  match d with
  | [] => [(k, v)]
  | (k', v') :: rest => if k' = k then (k, v) :: rest else (k', v') :: dictSet rest k v

/-- Lines 356-366: the augmented copy of one qualifying GGA record. -/
def augmentRecord (d : Rec) (p : Position) : Rec :=
  dictSet (dictSet (dictSet (dictSet (dictSet (dictSet d
    "latitude_original" (getVal d "latitude"))
    "longitude_original" (getVal d "longitude"))
    "altitude_original" (getValD d "altitude" (Val.num 0)))
    "latitude_corrected" (Val.num p.latitude))
    "longitude_corrected" (Val.num p.longitude))
    "altitude_corrected" (Val.num p.altitude)

/-- Embeds `GNSSParser.apply_corrections_to_data` (lines 338-370): pass the data
through on an error result, else map each record to a copy, augmenting the
qualifying GGA records with the original and corrected coordinates. -/
def apply_corrections_to_data (data : List Rec) (correction_info : CorrResultDoc) : List Rec :=
  match correction_info with
  | .err _ _ => data
  | .ok res =>
    data.map (fun d =>
      if isQualifying d then augmentRecord d res.corrected_position else d)

/-! ## Concrete inputs used to instantiate the theorems -/

/-- A minimal qualifying GGA record. -/
def ggaRec (lat lon : ℚ) : Rec :=
  [("sentence_type", Val.str "GGA"), ("latitude", Val.num lat), ("longitude", Val.num lon)]

/-- A qualifying GGA record whose satellite count is zero (exactly what the
decoder emits when the sentence carries no satellite count, line 33). -/
def zeroSatRec (lat lon : ℚ) : Rec :=
  [("sentence_type", Val.str "GGA"), ("latitude", Val.num lat), ("longitude", Val.num lon),
   ("fix_quality", Val.str "GPS Fix"), ("num_satellites", Val.num 0), ("hdop", Val.num 1)]

/-- A qualifying GGA record with an explicit zero HDOP field. -/
def zeroHdopRec : Rec :=
  [("sentence_type", Val.str "GGA"), ("latitude", Val.num 37), ("longitude", Val.num (-122)),
   ("fix_quality", Val.str "GPS Fix"), ("num_satellites", Val.num 8), ("hdop", Val.num 0)]

/-- A GSV record (satellites in view). -/
def gsvRec : Rec :=
  [("sentence_type", Val.str "GSV"), ("num_sv_in_view", Val.num 4)]

/-- Two distinct qualifying fixes. -/
def dataW7 : List Rec := [ggaRec 1 1, ggaRec 2 2]

/-! ## Theorems -/

/-- The number stored at a key, spec-side reading: the stored value when
the field holds a number, the stated default otherwise. -/
def numField (d : Rec) (k : String) (dflt : ℚ) : ℚ :=
  match d.lookup k with
  | some (Val.num q) => q
  | _ => dflt

/-- The string stored at a key, spec-side reading. -/
def strField (d : Rec) (k : String) (dflt : String) : String :=
  match d.lookup k with
  | some (Val.str s) => s
  | _ => dflt

theorem getStrD_eq_strField (d : Rec) (k dflt : String) :
    getStrD d k dflt = strField d k dflt := by
  unfold getStrD strField
  rcases hl : d.lookup k with _ | v
  · rfl
  · cases v <;> rfl

theorem getNumD_eq_numField (d : Rec) (k : String) (dflt : ℚ)
    (h : numericAt d k = true) : getNumD d k dflt = numField d k dflt := by
  unfold getNumD numField
  unfold numericAt at h
  rcases hl : d.lookup k with _ | v
  · rfl
  · rw [hl] at h
    cases v with
    | num q => rfl
    | str s => simp at h
    | nil => simp at h

theorem recordWeight_false (d : Rec) : recordWeight false d = 1 := rfl

theorem map_recordWeight_false (l : List Rec) :
    l.map (recordWeight false) = l.map (fun _ => 1) :=
  List.map_congr_left (fun d _ => recordWeight_false d)

theorem sum_map_one (l : List Rec) : (l.map (fun _ => (1 : ℚ))).sum = l.length := by
  induction l with
  | nil => simp
  | cons a t ih =>
    simp [ih]
    ring

theorem wsum_ones (l : List Rec) (f : Rec → ℚ) :
    wsum (l.map f) (l.map (fun _ => 1)) = (l.map f).sum := by
  unfold wsum
  rw [List.zip_map', List.map_map]
  exact congrArg List.sum (List.map_congr_left (fun a _ => by simp))

/-- C1: with at least 2 qualifying GGA records (and the numeric fields
well-typed, as the Python code presumes), `mean` returns the arithmetic
mean of the qualifying latitudes and longitudes, `median` the standard
sort-based median per axis, and for both the altitude component is the
mean/median of the altitudes only when some qualifying altitude is
non-zero, `0` otherwise. -/
theorem mean_median_corrected_position (data : List Rec) (wbq wbq' : Bool)
    (h2 : 2 ≤ (ggaData data).length) (hwt : ∀ d ∈ data, WT d = true) :
    (calculate_position_corrections data "mean" wbq).correctedPosition? =
      some ⟨listMean (latsOf data), listMean (lonsOf data),
        if pyAny (altsOf data) then listMean (altsOf data) else 0⟩ ∧
    (calculate_position_corrections data "median" wbq').correctedPosition? =
      some ⟨median (latsOf data), median (lonsOf data),
        if pyAny (altsOf data) then median (altsOf data) else 0⟩ := by
  have hlt : ¬ (ggaData data).length < 2 := Nat.not_lt.mpr h2
  constructor
  · unfold calculate_position_corrections
    simp [hlt, mkResult, CorrOutcome.correctedPosition?]
  · unfold calculate_position_corrections
    simp [hlt, mkResult, CorrOutcome.correctedPosition?]

/-- Witness for `mean_median_corrected_position` on two concrete fixes. -/
theorem mean_median_corrected_position_instance :
    2 ≤ (ggaData dataW7).length ∧ (∀ d ∈ dataW7, WT d = true) ∧
    ((calculate_position_corrections dataW7 "mean" true).correctedPosition? =
      some ⟨listMean (latsOf dataW7), listMean (lonsOf dataW7),
        if pyAny (altsOf dataW7) then listMean (altsOf dataW7) else 0⟩ ∧
     (calculate_position_corrections dataW7 "median" true).correctedPosition? =
      some ⟨median (latsOf dataW7), median (lonsOf dataW7),
        if pyAny (altsOf dataW7) then median (altsOf dataW7) else 0⟩) :=
  ⟨by decide, by decide,
    mean_median_corrected_position dataW7 true true (by decide) (by decide)⟩

/-- The per-record weight exactly as claim C5 words it, including the
clause `a missing or zero hdop defaults to 2.0`: a zero HDOP field is
replaced by 2.0 before the `max` floor is applied. -/
def claimWeight (d : Rec) : ℚ :=
  let hdop := numField d "hdop" 2
  let hdop' := if hdop = 0 then 2 else hdop
  quality_weights (strField d "fix_quality" "Unknown") *
    (numField d "num_satellites" 4 / 12) * (1 / max hdop' (1/2))

/-- C5, counterexample: on a record with an explicit zero HDOP field the
code clamps the zero to 0.5 (weight factor `1/0.5 = 2`), while the claim's
`zero hdop defaults to 2.0` yields factor `1/2`: `GPS Fix` quality 1,
8 satellites, so the code's weight is `1 * 8/12 * 2 = 4/3` against the
claim's `1 * 8/12 * 1/2 = 1/3`. -/
theorem zero_hdop_weight_differs :
    recordWeight true zeroHdopRec = 4/3 ∧ claimWeight zeroHdopRec = 1/3 ∧
    recordWeight true zeroHdopRec ≠ claimWeight zeroHdopRec := by
  have h1 : recordWeight true zeroHdopRec =
      quality_weights "GPS Fix" * (8 / 12) * (1 / max 0 (1/2)) := rfl
  have h2 : claimWeight zeroHdopRec =
      quality_weights "GPS Fix" * (8 / 12) * (1 / max 2 (1/2)) := rfl
  have hq : quality_weights "GPS Fix" = 1 := rfl
  rw [h1, h2, hq]
  rw [max_eq_right (by norm_num : (0:ℚ) ≤ 1/2), max_eq_left (by norm_num : (1:ℚ)/2 ≤ 2)]
  norm_num

/-- C5 as amended: for a well-typed record, the weight used by the
`weighted_average` branch with `weight_by_quality` true equals
`quality_weight(fix_quality) * (num_satellites / 12) * (1 / max(hdop, 0.5))`
with a missing `num_satellites` defaulting to 4 and a missing `hdop`
defaulting to 2.0; an explicit zero (or any sub-0.5) `hdop` is clamped to
0.5 by the `max`, not replaced by 2.0. -/
def amendedWeight (d : Rec) : ℚ :=
  quality_weights (strField d "fix_quality" "Unknown") *
    (numField d "num_satellites" 4 / 12) * (1 / max (numField d "hdop" 2) (1/2))

/-- C5 as amended (see `amendedWeight`): the code's weight is the claim's
formula once the zero-HDOP clause is dropped. -/
theorem weighted_average_weight_formula (d : Rec) (h : WT d = true) :
    recordWeight true d = amendedWeight d := by
  simp only [WT, Bool.and_eq_true] at h
  simp only [recordWeight, amendedWeight, if_true]
  rw [getStrD_eq_strField, getNumD_eq_numField d "num_satellites" 4 h.1.2,
    getNumD_eq_numField d "hdop" 2 h.2]

/-- Witness for `weighted_average_weight_formula`. -/
theorem weighted_average_weight_formula_instance :
    WT (zeroSatRec 1 1) = true ∧
    recordWeight true (zeroSatRec 1 1) = amendedWeight (zeroSatRec 1 1) :=
  ⟨by decide, weighted_average_weight_formula (zeroSatRec 1 1) (by decide)⟩

/-- C6: with at least 2 qualifying GGA records, `weighted_average` with
`weight_by_quality` false gives every record weight 1 and returns the same
corrected position as `mean` on the same input (exactly, in ideal
arithmetic). -/
theorem weighted_unweighted_eq_mean (data : List Rec) (wbq : Bool)
    (h2 : 2 ≤ (ggaData data).length) :
    (calculate_position_corrections data "weighted_average" false).correctedPosition? =
    (calculate_position_corrections data "mean" wbq).correctedPosition? := by
  have hlt : ¬ (ggaData data).length < 2 := Nat.not_lt.mpr h2
  have hn0 : ((ggaData data).length : ℚ) ≠ 0 := Nat.cast_ne_zero.mpr (by omega)
  unfold calculate_position_corrections
  simp only [hlt, if_false, latsOf, lonsOf, altsOf]
  rw [map_recordWeight_false, sum_map_one]
  simp only [hn0, if_false, wsum_ones]
  simp [mkResult, CorrOutcome.correctedPosition?, listMean, List.length_map]

/-- Witness for `weighted_unweighted_eq_mean`. -/
theorem weighted_unweighted_eq_mean_instance :
    2 ≤ (ggaData dataW7).length ∧
    (calculate_position_corrections dataW7 "weighted_average" false).correctedPosition? =
    (calculate_position_corrections dataW7 "mean" true).correctedPosition? :=
  ⟨by decide, weighted_unweighted_eq_mean dataW7 true (by decide)⟩

theorem le_foldl_max (xs : List ℝ) (a : ℝ) : a ≤ xs.foldl max a := by
  induction xs generalizing a with
  | nil => simp
  | cons y ys ih => exact le_trans (le_max_left a y) (ih (max a y))

theorem mem_le_foldl_max (xs : List ℝ) (a x : ℝ) (hx : x ∈ xs) : x ≤ xs.foldl max a := by
  induction xs generalizing a with
  | nil => cases hx
  | cons y ys ih =>
    rcases List.mem_cons.mp hx with rfl | h
    · exact le_trans (le_max_right a x) (le_foldl_max ys (max a x))
    · exact ih (max a y) h

theorem foldl_min_le (xs : List ℝ) (a : ℝ) : xs.foldl min a ≤ a := by
  induction xs generalizing a with
  | nil => simp
  | cons y ys ih => exact le_trans (ih (min a y)) (min_le_left a y)

theorem foldl_min_le_mem (xs : List ℝ) (a x : ℝ) (hx : x ∈ xs) : xs.foldl min a ≤ x := by
  induction xs generalizing a with
  | nil => cases hx
  | cons y ys ih =>
    rcases List.mem_cons.mp hx with rfl | h
    · exact le_trans (foldl_min_le ys (min a x)) (min_le_right a x)
    · exact ih (min a y) h

theorem le_foldl_min (xs : List ℝ) (a m : ℝ) (ha : m ≤ a) (h : ∀ x ∈ xs, m ≤ x) :
    m ≤ xs.foldl min a := by
  induction xs generalizing a with
  | nil => exact ha
  | cons y ys ih =>
    exact ih (min a y) (le_min ha (h y (List.mem_cons_self y ys)))
      (fun x hx => h x (List.mem_cons_of_mem y hx))

theorem pyMinR_le_mem (l : List ℝ) (x : ℝ) (hx : x ∈ l) : pyMinR l ≤ x := by
  cases l with
  | nil => cases hx
  | cons y ys =>
    rcases List.mem_cons.mp hx with h | h
    · exact h ▸ foldl_min_le ys y
    · exact foldl_min_le_mem ys y x h

theorem mem_le_pyMaxR (l : List ℝ) (x : ℝ) (hx : x ∈ l) : x ≤ pyMaxR l := by
  cases l with
  | nil => cases hx
  | cons y ys =>
    rcases List.mem_cons.mp hx with h | h
    · exact h ▸ le_foldl_max ys y
    · exact mem_le_foldl_max ys y x h

theorem le_pyMinR (l : List ℝ) (m : ℝ) (hne : l ≠ []) (h : ∀ x ∈ l, m ≤ x) :
    m ≤ pyMinR l := by
  cases l with
  | nil => exact absurd rfl hne
  | cons y ys =>
    exact le_foldl_min ys y m (h y (List.mem_cons_self y ys))
      (fun x hx => h x (List.mem_cons_of_mem y hx))

theorem length_mul_le_sum (l : List ℝ) (m : ℝ) (h : ∀ x ∈ l, m ≤ x) :
    (l.length : ℝ) * m ≤ l.sum := by
  induction l with
  | nil => simp
  | cons y ys ih =>
    have h1 := ih (fun x hx => h x (List.mem_cons_of_mem y hx))
    have h2 := h y (List.mem_cons_self y ys)
    simp only [List.sum_cons, List.length_cons]
    push_cast
    nlinarith

theorem sum_le_length_mul (l : List ℝ) (M : ℝ) (h : ∀ x ∈ l, x ≤ M) :
    l.sum ≤ (l.length : ℝ) * M := by
  induction l with
  | nil => simp
  | cons y ys ih =>
    have h1 := ih (fun x hx => h x (List.mem_cons_of_mem y hx))
    have h2 := h y (List.mem_cons_self y ys)
    simp only [List.sum_cons, List.length_cons]
    push_cast
    nlinarith

theorem pyMinR_le_mean (l : List ℝ) (hne : l ≠ []) : pyMinR l ≤ listMeanR l := by
  have hn : (0 : ℝ) < l.length := by
    have := List.length_pos.mpr hne
    exact_mod_cast this
  rw [listMeanR, le_div_iff hn]
  calc pyMinR l * l.length = (l.length : ℝ) * pyMinR l := by ring
    _ ≤ l.sum := length_mul_le_sum l (pyMinR l) (fun x hx => pyMinR_le_mem l x hx)

theorem mean_le_pyMaxR (l : List ℝ) (hne : l ≠ []) : listMeanR l ≤ pyMaxR l := by
  have hn : (0 : ℝ) < l.length := by
    have := List.length_pos.mpr hne
    exact_mod_cast this
  rw [listMeanR, div_le_iff hn]
  calc l.sum ≤ (l.length : ℝ) * pyMaxR l :=
        sum_le_length_mul l (pyMaxR l) (fun x hx => mem_le_pyMaxR l x hx)
    _ = pyMaxR l * l.length := by ring

/-- C7: whenever `calculate_position_corrections` succeeds, the per-record
distance corrections (the flat-Earth `sqrt(dlat² + dlon²)` values of lines
293-298 against the returned corrected position) satisfy
`0 ≤ min ≤ mean ≤ max`, which are exactly the reported
`min/mean/max_distance_correction_m`. -/
theorem distance_correction_bounds (data : List Rec) (method : String) (wbq : Bool)
    (res : CorrCore)
    (h : calculate_position_corrections data method wbq = .result (.ok res)) :
    0 ≤ pyMinR (correction_distances data res.corrected_position.latitude
        res.corrected_position.longitude) ∧
    pyMinR (correction_distances data res.corrected_position.latitude
        res.corrected_position.longitude) ≤
      listMeanR (correction_distances data res.corrected_position.latitude
        res.corrected_position.longitude) ∧
    listMeanR (correction_distances data res.corrected_position.latitude
      res.corrected_position.longitude) ≤
      pyMaxR (correction_distances data res.corrected_position.latitude
        res.corrected_position.longitude) := by
  have h2 : ¬ (ggaData data).length < 2 := by
    intro hlt
    unfold calculate_position_corrections at h
    simp [hlt] at h
  have hne : correction_distances data res.corrected_position.latitude
      res.corrected_position.longitude ≠ [] := by
    intro hnil
    have hlen : (correction_distances data res.corrected_position.latitude
        res.corrected_position.longitude).length = (ggaData data).length := by
      simp [correction_distances]
    rw [hnil] at hlen
    simp at hlen
    omega
  have hnn : ∀ x ∈ correction_distances data res.corrected_position.latitude
      res.corrected_position.longitude, 0 ≤ x := by
    intro x hx
    rcases List.mem_map.mp hx with ⟨d, _, rfl⟩
    exact Real.sqrt_nonneg _
  exact ⟨le_pyMinR _ 0 hne hnn, pyMinR_le_mean _ hne, mean_le_pyMaxR _ hne⟩

/-- The success document `mean` produces on `dataW7` (spelled with the
unevaluated aggregation terms, so that it is definitionally what the
calculator returns). -/
def resW7 : CorrCore :=
  { corrected_position :=
      ⟨listMean (latsOf dataW7), listMean (lonsOf dataW7),
        if pyAny (altsOf dataW7) then listMean (altsOf dataW7) else 0⟩
    original_center :=
      ⟨listMean (latsOf dataW7), listMean (lonsOf dataW7),
        if pyAny (altsOf dataW7) then listMean (altsOf dataW7) else 0⟩
    mean_lat_correction :=
      listMean ((latsOf dataW7).map (fun lat => listMean (latsOf dataW7) - lat))
    mean_lon_correction :=
      listMean ((lonsOf dataW7).map (fun lon => listMean (lonsOf dataW7) - lon))
    mean_alt_correction :=
      if pyAny (altsOf dataW7) then
        listMean ((altsOf dataW7).map (fun alt =>
          (if pyAny (altsOf dataW7) then listMean (altsOf dataW7) else 0) - alt))
      else 0
    num_points := (ggaData dataW7).length
    method := "mean"
    weight_by_quality := true }

/-- Witness for `distance_correction_bounds`. -/
theorem distance_correction_bounds_instance :
    calculate_position_corrections dataW7 "mean" true = .result (.ok resW7) ∧
    (0 ≤ pyMinR (correction_distances dataW7 resW7.corrected_position.latitude
        resW7.corrected_position.longitude) ∧
     pyMinR (correction_distances dataW7 resW7.corrected_position.latitude
        resW7.corrected_position.longitude) ≤
       listMeanR (correction_distances dataW7 resW7.corrected_position.latitude
        resW7.corrected_position.longitude) ∧
     listMeanR (correction_distances dataW7 resW7.corrected_position.latitude
        resW7.corrected_position.longitude) ≤
       pyMaxR (correction_distances dataW7 resW7.corrected_position.latitude
        resW7.corrected_position.longitude)) :=
  ⟨rfl, distance_correction_bounds dataW7 "mean" true resW7 rfl⟩

/-- C8, counterexample: a GSV record is present in the input, yet the
summary document reports no count under the per-type naming convention
(`gsv_count`); only GGA/GSA/RMC counts exist. -/
theorem gsv_count_absent :
    ([gsvRec].filter (fun d => isOfType d "GSV")).length = 1 ∧
    (get_summary_statistics [gsvRec]).lookup (sentenceTypeCountKey "GSV") = none :=
  ⟨rfl, rfl⟩

/-- C8 as amended: the empty input yields the empty document, and every
non-empty input yields a document carrying the total record count and
counts for the GGA, GSA and RMC sentence types (whether or not records of
those types are present); GSV records are counted only in the total. -/
theorem summary_reports_counts :
    get_summary_statistics [] = [] ∧
    ∀ data : List Rec, data ≠ [] →
      (get_summary_statistics data).lookup "total_sentences" = some (SVal.nat data.length) ∧
      (get_summary_statistics data).lookup "gga_count" =
        some (SVal.nat (data.filter (fun d => isOfType d "GGA")).length) ∧
      (get_summary_statistics data).lookup "gsa_count" =
        some (SVal.nat (data.filter (fun d => isOfType d "GSA")).length) ∧
      (get_summary_statistics data).lookup "rmc_count" =
        some (SVal.nat (data.filter (fun d => isOfType d "RMC")).length) := by
  refine ⟨rfl, fun data h => ?_⟩
  cases data with
  | nil => exact absurd rfl h
  | cons d ds => exact ⟨rfl, rfl, rfl, rfl⟩

/-- Witness for `summary_reports_counts` on a non-empty input. -/
theorem summary_reports_counts_instance :
    ([gsvRec] ≠ []) ∧
    ((get_summary_statistics [gsvRec]).lookup "total_sentences" =
        some (SVal.nat [gsvRec].length) ∧
     (get_summary_statistics [gsvRec]).lookup "gga_count" =
        some (SVal.nat ([gsvRec].filter (fun d => isOfType d "GGA")).length) ∧
     (get_summary_statistics [gsvRec]).lookup "gsa_count" =
        some (SVal.nat ([gsvRec].filter (fun d => isOfType d "GSA")).length) ∧
     (get_summary_statistics [gsvRec]).lookup "rmc_count" =
        some (SVal.nat ([gsvRec].filter (fun d => isOfType d "RMC")).length)) :=
  ⟨by decide, summary_reports_counts.2 [gsvRec] (by decide)⟩

theorem lookup_dictSet_self (d : Rec) (k : String) (v : Val) :
    (dictSet d k v).lookup k = some v := by
  induction d with
  | nil => simp [dictSet, List.lookup_cons]
  | cons p t ih =>
    obtain ⟨k', v'⟩ := p
    by_cases h : k' = k
    · subst h
      simp [dictSet, List.lookup_cons]
    · simp [dictSet, h, List.lookup_cons, beq_false_of_ne (Ne.symm h), ih]

theorem lookup_dictSet_ne (d : Rec) (k k' : String) (v : Val) (h : k' ≠ k) :
    (dictSet d k v).lookup k' = d.lookup k' := by
  induction d with
  | nil => simp [dictSet, List.lookup_cons, beq_false_of_ne h]
  | cons p t ih =>
    obtain ⟨k'', v''⟩ := p
    by_cases hk : k'' = k
    · subst hk
      simp [dictSet, List.lookup_cons, beq_false_of_ne h]
    · simp [dictSet, hk, List.lookup_cons, ih]

/-- The six bindings written by `augmentRecord` are retrievable. -/
theorem augment_lookups (d : Rec) (p : Position) :
    (augmentRecord d p).lookup "latitude_original" = some (getVal d "latitude") ∧
    (augmentRecord d p).lookup "longitude_original" = some (getVal d "longitude") ∧
    (augmentRecord d p).lookup "altitude_original" = some (getValD d "altitude" (Val.num 0)) ∧
    (augmentRecord d p).lookup "latitude_corrected" = some (Val.num p.latitude) ∧
    (augmentRecord d p).lookup "longitude_corrected" = some (Val.num p.longitude) ∧
    (augmentRecord d p).lookup "altitude_corrected" = some (Val.num p.altitude) := by
  unfold augmentRecord
  refine ⟨?_, ?_, ?_, ?_, ?_, ?_⟩
  · rw [lookup_dictSet_ne _ _ _ _ (by decide), lookup_dictSet_ne _ _ _ _ (by decide),
      lookup_dictSet_ne _ _ _ _ (by decide), lookup_dictSet_ne _ _ _ _ (by decide),
      lookup_dictSet_ne _ _ _ _ (by decide), lookup_dictSet_self]
  · rw [lookup_dictSet_ne _ _ _ _ (by decide), lookup_dictSet_ne _ _ _ _ (by decide),
      lookup_dictSet_ne _ _ _ _ (by decide), lookup_dictSet_ne _ _ _ _ (by decide),
      lookup_dictSet_self]
  · rw [lookup_dictSet_ne _ _ _ _ (by decide), lookup_dictSet_ne _ _ _ _ (by decide),
      lookup_dictSet_ne _ _ _ _ (by decide), lookup_dictSet_self]
  · rw [lookup_dictSet_ne _ _ _ _ (by decide), lookup_dictSet_ne _ _ _ _ (by decide),
      lookup_dictSet_self]
  · rw [lookup_dictSet_ne _ _ _ _ (by decide), lookup_dictSet_self]
  · rw [lookup_dictSet_self]

/-- C9: the applicator returns a sequence of the input's length and order;
on an error result it returns the input itself; otherwise the record at
each index is the input record augmented (when it is a qualifying GGA
record) with its original coordinates under the `*_original` keys and the
shared corrected position under the `*_corrected` keys, and is the input
record unchanged otherwise. -/
theorem apply_corrections_shape (data : List Rec) (ci : CorrResultDoc) :
    (apply_corrections_to_data data ci).length = data.length ∧
    (∀ msg np, ci = CorrResultDoc.err msg np → apply_corrections_to_data data ci = data) ∧
    (∀ res, ci = CorrResultDoc.ok res → ∀ (i : ℕ) (d : Rec), data[i]? = some d →
      ∃ d', (apply_corrections_to_data data ci)[i]? = some d' ∧
        (isQualifying d = true →
          d'.lookup "latitude_original" = some (getVal d "latitude") ∧
          d'.lookup "longitude_original" = some (getVal d "longitude") ∧
          d'.lookup "altitude_original" = some (getValD d "altitude" (Val.num 0)) ∧
          d'.lookup "latitude_corrected" = some (Val.num res.corrected_position.latitude) ∧
          d'.lookup "longitude_corrected" = some (Val.num res.corrected_position.longitude) ∧
          d'.lookup "altitude_corrected" = some (Val.num res.corrected_position.altitude)) ∧
        (isQualifying d = false → d' = d)) := by
  cases ci with
  | err msg np =>
    refine ⟨rfl, fun _ _ _ => rfl, fun res hres => ?_⟩
    cases hres
  | ok res =>
    refine ⟨List.length_map _ _, ?_, ?_⟩
    · intro msg np h
      cases h
    rintro res' hres i d hd
    injection hres with h'
    subst h'
    refine ⟨if isQualifying d then augmentRecord d res.corrected_position else d, ?_, ?_, ?_⟩
    · unfold apply_corrections_to_data
      rw [List.getElem?_map, hd]
      rfl
    · intro hq
      rw [if_pos hq]
      exact augment_lookups d res.corrected_position
    · intro hq
      rw [if_neg (by simp [hq])]

/-- The corrected-position document used to instantiate the applicator
theorems. -/
def resC10 : CorrCore :=
  { corrected_position := ⟨5, 6, 7⟩
    original_center := ⟨5, 6, 7⟩
    mean_lat_correction := 0
    mean_lon_correction := 0
    mean_alt_correction := 0
    num_points := 2
    method := "mean"
    weight_by_quality := true }

/-- Witness for `apply_corrections_shape` on one qualifying record. -/
theorem apply_corrections_shape_instance :
    ((CorrResultDoc.ok resC10 : CorrResultDoc) = CorrResultDoc.ok resC10) ∧
    ([ggaRec 1 2][0]? = some (ggaRec 1 2)) ∧
    (∃ d', (apply_corrections_to_data [ggaRec 1 2] (CorrResultDoc.ok resC10))[0]? = some d' ∧
      (isQualifying (ggaRec 1 2) = true →
        d'.lookup "latitude_original" = some (getVal (ggaRec 1 2) "latitude") ∧
        d'.lookup "longitude_original" = some (getVal (ggaRec 1 2) "longitude") ∧
        d'.lookup "altitude_original" = some (getValD (ggaRec 1 2) "altitude" (Val.num 0)) ∧
        d'.lookup "latitude_corrected" = some (Val.num resC10.corrected_position.latitude) ∧
        d'.lookup "longitude_corrected" = some (Val.num resC10.corrected_position.longitude) ∧
        d'.lookup "altitude_corrected" = some (Val.num resC10.corrected_position.altitude)) ∧
      (isQualifying (ggaRec 1 2) = false → d' = ggaRec 1 2)) :=
  ⟨rfl, rfl,
    (apply_corrections_shape [ggaRec 1 2] (CorrResultDoc.ok resC10)).2.2
      resC10 rfl 0 (ggaRec 1 2) (by decide)⟩

/-- A qualifying GGA record that already carries a `latitude_original`
binding. -/
def preAugRec : Rec :=
  [("sentence_type", Val.str "GGA"), ("latitude", Val.num 1), ("longitude", Val.num 1),
   ("latitude_original", Val.num 99)]

/-- C10, counterexample: a pre-existing `latitude_original` binding (99)
is overwritten by the applicator (with the record's latitude, 1), so not
every key-value pair of the input record is retained. -/
theorem augment_overwrites_existing_key :
    preAugRec.lookup "latitude_original" = some (Val.num 99) ∧
    ((apply_corrections_to_data [preAugRec] (CorrResultDoc.ok resC10)).headD []).lookup
        "latitude_original" = some (Val.num 1) :=
  ⟨rfl, rfl⟩

/-- The six keys the applicator writes. -/
def augmentationKeys : List String :=
  ["latitude_original", "longitude_original", "altitude_original",
   "latitude_corrected", "longitude_corrected", "altitude_corrected"]

/-- C10 as amended: the applicator never mutates its input (the embedding
is a pure function of it), and every output record retains every key-value
pair of the corresponding input record whose key is not one of the six
augmentation keys — in particular the plain `latitude`, `longitude` and
`altitude` bindings are never overwritten; a pre-existing binding of an
augmentation key, however, is replaced. -/
theorem apply_preserves_other_keys (data : List Rec) (ci : CorrResultDoc) (i : ℕ) (d : Rec)
    (hd : data[i]? = some d) (k : String) (hk : k ∉ augmentationKeys) :
    ∃ d', (apply_corrections_to_data data ci)[i]? = some d' ∧ d'.lookup k = d.lookup k := by
  simp only [augmentationKeys, List.mem_cons, List.not_mem_nil, or_false, not_or] at hk
  obtain ⟨h1, h2, h3, h4, h5, h6⟩ := hk
  cases ci with
  | err msg np => exact ⟨d, hd, rfl⟩
  | ok res =>
    refine ⟨if isQualifying d then augmentRecord d res.corrected_position else d, ?_, ?_⟩
    · unfold apply_corrections_to_data
      rw [List.getElem?_map, hd]
      rfl
    · by_cases hq : isQualifying d
      · rw [if_pos hq]
        unfold augmentRecord
        rw [lookup_dictSet_ne _ _ _ _ h6, lookup_dictSet_ne _ _ _ _ h5,
          lookup_dictSet_ne _ _ _ _ h4, lookup_dictSet_ne _ _ _ _ h3,
          lookup_dictSet_ne _ _ _ _ h2, lookup_dictSet_ne _ _ _ _ h1]
      · rw [if_neg hq]

/-- Witness for `apply_preserves_other_keys`: the plain `latitude` binding
survives augmentation. -/
theorem apply_preserves_other_keys_instance :
    ([ggaRec 1 2][0]? = some (ggaRec 1 2)) ∧ ("latitude" ∉ augmentationKeys) ∧
    (∃ d', (apply_corrections_to_data [ggaRec 1 2] (CorrResultDoc.ok resC10))[0]? = some d' ∧
      d'.lookup "latitude" = (ggaRec 1 2).lookup "latitude") :=
  ⟨by decide, by decide,
    apply_preserves_other_keys [ggaRec 1 2] (CorrResultDoc.ok resC10) 0 (ggaRec 1 2)
      (by decide) "latitude" (by decide)⟩

/-- C2: with fewer than 2 qualifying GGA records, every method returns
(without raising) the error document whose `error` field is exactly
`Insufficient data for corrections (need at least 2 position fixes)` and
whose `num_points` field is the qualifying count. -/
theorem insufficient_data_error (data : List Rec) (method : String) (wbq : Bool)
    (h : (ggaData data).length < 2) :
    calculate_position_corrections data method wbq =
      .result (.err "Insufficient data for corrections (need at least 2 position fixes)"
        (some (ggaData data).length)) := by
  unfold calculate_position_corrections
  simp [h, insufficientMsg]

/-- Witness for `insufficient_data_error`: one qualifying fix is not enough,
for a method that would otherwise succeed. -/
theorem insufficient_data_error_instance :
    (ggaData [ggaRec 1 1]).length < 2 ∧
    calculate_position_corrections [ggaRec 1 1] "mean" true =
      .result (.err "Insufficient data for corrections (need at least 2 position fixes)"
        (some (ggaData [ggaRec 1 1]).length)) :=
  ⟨by decide, insufficient_data_error [ggaRec 1 1] "mean" true (by decide)⟩

/-- C3 (code bug): on two qualifying fixes whose satellite count is 0 —
the decoder's value for a sentence with no satellite count — every
per-record weight is `quality * (0 / 12.0) * hdop_weight = 0`, the total
weight is 0, and the unguarded divisions of lines 281-283 raise
`ZeroDivisionError` instead of returning an error result. -/
theorem zero_total_weight_raises :
    calculate_position_corrections [zeroSatRec 1 1, zeroSatRec 2 2] "weighted_average" true =
      .raised "ZeroDivisionError" := by
  have hw : ∀ lat lon : ℚ, recordWeight true (zeroSatRec lat lon) = 0 := by
    intro lat lon
    have hsat : getNumD (zeroSatRec lat lon) "num_satellites" 4 = 0 := rfl
    simp only [recordWeight, hsat, zero_div, mul_zero, zero_mul, if_true]
  have hgga : ggaData [zeroSatRec 1 1, zeroSatRec 2 2] = [zeroSatRec 1 1, zeroSatRec 2 2] := rfl
  unfold calculate_position_corrections
  rw [hgga]
  simp [hw]

/-- C4, counterexample: with two qualifying fixes and an unknown method,
the returned error document names the method but carries no `num_points`
field (unlike the insufficient-data failure), refuting the claim that
every failure result carries one. -/
theorem unknown_method_missing_num_points :
    calculate_position_corrections [ggaRec 1 1, ggaRec 2 2] "bogus" true =
      .result (.err "Unknown correction method: bogus" none) ∧
    (calculate_position_corrections [ggaRec 1 1, ggaRec 2 2] "bogus" true).numPoints? = none :=
  ⟨rfl, rfl⟩

/-- C4 as amended: with at least 2 qualifying records, a method outside
{mean, median, weighted_average} yields an error document whose message
names the invalid method, with no numeric fields and no `num_points`
field. (With fewer than 2 qualifying records the insufficient-data error
is returned first, whatever the method.) -/
theorem unknown_method_error (data : List Rec) (method : String) (wbq : Bool)
    (h2 : 2 ≤ (ggaData data).length)
    (hm : method ≠ "mean" ∧ method ≠ "median" ∧ method ≠ "weighted_average") :
    calculate_position_corrections data method wbq =
      .result (.err ("Unknown correction method: " ++ method) none) := by
  have hlt : ¬ (ggaData data).length < 2 := Nat.not_lt.mpr h2
  unfold calculate_position_corrections
  simp [hlt, hm.1, hm.2.1, hm.2.2]

/-- Witness for `unknown_method_error`. -/
theorem unknown_method_error_instance :
    2 ≤ (ggaData [ggaRec 1 1, ggaRec 2 2]).length ∧
    ("bogus" ≠ "mean" ∧ "bogus" ≠ "median" ∧ "bogus" ≠ "weighted_average") ∧
    calculate_position_corrections [ggaRec 1 1, ggaRec 2 2] "bogus" true =
      .result (.err ("Unknown correction method: " ++ "bogus") none) :=
  ⟨by decide, by decide,
    unknown_method_error [ggaRec 1 1, ggaRec 2 2] "bogus" true (by decide) (by decide)⟩

end GNSS
